import Mathlib

/-!
Verification of the zzapi edge service (src/main.rs): the canvas-fit image
transform, the two-hop HTML extraction pipeline of the event handler, the
square.png handler's URL allow-list, the error-to-response boundary, and the
cache-control annotator.

Modelling conventions:
* Machine integers (`u32`, `usize`) are modelled as `Nat`; where the Rust code
  could underflow or overflow, the relevant bound is proved rather than assumed.
* The external collaborators (HTTP fetch, the image codec's decoder/encoder,
  the Lanczos3 resampling kernel, the alpha-blend of `Rgba::blend`) are
  parameters of the model: the repository's code never inspects their output
  values beyond passing them on, and no claim depends on them.
* `f64` arithmetic inside the image crate's `resize_dimensions` is modelled in
  exact rational arithmetic with round-half-away-from-zero (the behaviour of
  Rust's `f64::round`); for the magnitudes involved (dimensions below `2^32`)
  the rounding error of `f64` is far below one half, so the dimension bounds
  proved here hold of the floating-point computation as well.
-/

namespace ZZApi

/-- Pixel formats of the `image` crate that matter here: the output of
`resize_image` is a `DynamicImage::ImageRgba8`. -/
inductive PixelFormat
  | L8
  | La8
  | Rgb8
  | Rgba8
deriving DecidableEq, Repr

/-- Whether a pixel format carries an alpha channel. -/
def PixelFormat.hasAlpha : PixelFormat → Bool
  | .L8 => false
  | .La8 => false
  | .Rgb8 => false
  | .Rgba8 => true

/-- An RGBA pixel with 8-bit channels (`image::Rgba<u8>`). -/
structure Rgba where
  r : Nat
  g : Nat
  b : Nat
  a : Nat
deriving DecidableEq, Repr

/-- The fully transparent pixel `Rgba([0, 0, 0, 0])`. -/
def transparent : Rgba := ⟨0, 0, 0, 0⟩

/-- A decoded image: a width × height grid of RGBA pixels together with its
pixel format.  `pixel x y` is the pixel at column `x`, row `y`; coordinates
outside the grid are irrelevant to every statement below. -/
structure Image where
  width : Nat
  height : Nat
  format : PixelFormat
  pixel : Nat → Nat → Rgba

/-- The constant `u32::MAX`. -/
def u32max : Nat := 4294967295

/-- Rust's `f64::round` (round half away from zero) restricted to the
non-negative inputs that occur in `resize_dimensions`. -/
def roundAz (q : ℚ) : ℤ := ⌊q + 1 / 2⌋

/-- The `image` crate's `resize_dimensions(width, height, nwidth, nheight,
fill = false)`: the largest dimensions fitting inside `nwidth × nheight` that
preserve the `width : height` aspect ratio, each rounded and clamped to at
least 1, with saturation at `u32::MAX`. -/
def resize_dimensions (width height nwidth nheight : Nat) : Nat × Nat :=
  let wratio : ℚ := (nwidth : ℚ) / (width : ℚ)
  let hratio : ℚ := (nheight : ℚ) / (height : ℚ)
  let ratio := min wratio hratio
  let nw := max (roundAz ((width : ℚ) * ratio)).toNat 1
  let nh := max (roundAz ((height : ℚ) * ratio)).toNat 1
  if u32max < nw then
    let ratio2 : ℚ := (u32max : ℚ) / (width : ℚ)
    (u32max, max (roundAz ((height : ℚ) * ratio2)).toNat 1)
  else if u32max < nh then
    let ratio2 : ℚ := (u32max : ℚ) / (height : ℚ)
    (max (roundAz ((width : ℚ) * ratio2)).toNat 1, u32max)
  else
    (nw, nh)

/-- Model of `DynamicImage::resize(nwidth, nheight, FilterType::Lanczos3)`: the result has
the dimensions given by `resize_dimensions` and the source's pixel format; the
resampled pixel values are produced by the Lanczos3 kernel, abstracted here as
the parameter `resample` (no claim constrains them). -/
def resize (resample : Image → Nat → Nat → Nat → Nat → Rgba)
    (img : Image) (nwidth nheight : Nat) : Image :=
  let d := resize_dimensions img.width img.height nwidth nheight
  { width := d.1, height := d.2, format := img.format, pixel := resample img d.1 d.2 }

/-- Model of `image::imageops::overlay(bottom, top, x, y)` for non-negative offsets:
every pixel of `top` that lands inside `bottom` is blended (`Rgba::blend`,
abstracted as `blend`) over the pixel beneath it; every other pixel of
`bottom` is left unchanged. -/
def overlay (blend : Rgba → Rgba → Rgba) (bottom top : Image) (x y : Nat) : Image :=
  { width := bottom.width
    height := bottom.height
    format := bottom.format
    pixel := fun i j =>
      if x ≤ i ∧ i < x + top.width ∧ i < bottom.width ∧
          y ≤ j ∧ j < y + top.height ∧ j < bottom.height then
        blend (bottom.pixel i j) (top.pixel (i - x) (j - y))
      else
        bottom.pixel i j }

/-- The centering offsets of `resize_image` (main.rs lines 125–126):
`x_offset = (width - new_width) / 2`, `y_offset = (height - new_height) / 2`,
in `u32` arithmetic, so `/` is floor division. -/
def centering_offsets (width height new_width new_height : Nat) : Nat × Nat :=
  ((width - new_width) / 2, (height - new_height) / 2)

/-- Model of `resize_image(img, width, height)` (main.rs lines 120–135): resize to fit
within the target, allocate a `width × height` canvas of fully transparent
pixels, and overlay the resized image at the centering offsets.  The result is
wrapped as `DynamicImage::ImageRgba8`, i.e. its format is `Rgba8`. -/
def resize_image (resample : Image → Nat → Nat → Nat → Nat → Rgba)
    (blend : Rgba → Rgba → Rgba) (img : Image) (width height : Nat) : Image :=
  let resized_img := resize resample img width height
  let output_img : Image :=
    { width := width, height := height, format := .Rgba8, pixel := fun _ _ => transparent }
  let off := centering_offsets width height resized_img.width resized_img.height
  overlay blend output_img resized_img off.1 off.2

/-! ### The extraction patterns of the event handler

Both handler regexes have the shape `literal-prefix (.+) literal-suffix`, with
the default Rust `regex` semantics: leftmost match start, greedy (longest)
capture, and `.` matching every character except a newline.  `regexCapture`
implements exactly that for this shape. -/

/-- Does `pat` occur in `s` starting at index `i`? -/
def matchesAt (s : List Char) (i : Nat) (pat : List Char) : Bool :=
  decide ((s.drop i).take pat.length = pat)

/-- All indices `e` at which the capture started by `pre` at index `i` may
end: the suffix `post` matches at `e`, the capture `s[i+|pre| .. e)` is
non-empty, and it contains no newline (`.` does not match a newline). -/
def candidateEnds (s pre post : List Char) (i : Nat) : List Nat :=
  (List.range (s.length + 1)).filter fun e =>
    decide (i + pre.length + 1 ≤ e) && matchesAt s e post &&
      ((s.drop (i + pre.length)).take (e - (i + pre.length))).all fun c =>
        decide (c ≠ Char.ofNat 10)

/-- First capture group of the first match of the regex
`pre (.+) post` in `s`: the leftmost start wins, and at that start the greedy
`(.+)` takes the longest admissible span. -/
def regexCapture (pre post s : List Char) : Option (List Char) :=
  ((List.range s.length).filterMap fun i =>
    if matchesAt s i pre then
      match (candidateEnds s pre post i).getLast? with
      | some e => some ((s.drop (i + pre.length)).take (e - (i + pre.length)))
      | none => none
    else none).head?

/-- The apostrophe character, U+0027. -/
def apos : Char := Char.ofNat 39

/-- Leading literal of the hop (a) regex `;url='(.+)'\" />` (main.rs line 62). -/
def urlPre : List Char := ";url=".toList ++ [ apos]

/-- Trailing literal of the hop (a) regex. -/
def urlPost : List Char := [ apos] ++ "\" />".toList

/-- Leading literal of the hop (b) regex
`<meta property="og:site_name" content="(.+)" />` (main.rs line 77). -/
def sitePre : List Char := "<meta property=\"og:site_name\" content=\"".toList

/-- Trailing literal of the hop (b) regex. -/
def sitePost : List Char := "\" />".toList

/-- One-pass entity decoder over at most `fuel` characters; `fuel` bounds the
recursion structurally and is always called with `fuel ≥` the list length. -/
def decodeEntitiesAux : Nat → List Char → List Char
  | 0, l => l
  | _, [] => []
  | fuel + 1, c :: rest =>
    if c = '&' then
      if rest.take 4 = "amp;".toList then
        '&' :: decodeEntitiesAux fuel (rest.drop 4)
      else if rest.take 3 = "lt;".toList then
        '<' :: decodeEntitiesAux fuel (rest.drop 3)
      else if rest.take 3 = "gt;".toList then
        '>' :: decodeEntitiesAux fuel (rest.drop 3)
      else if rest.take 5 = "quot;".toList then
        '"' :: decodeEntitiesAux fuel (rest.drop 5)
      else
        c :: decodeEntitiesAux fuel rest
    else
      c :: decodeEntitiesAux fuel rest

/-- Model of `html_escape::decode_html_entities` (external collaborator), built on
the basic named character references; the unmodelled references (further named
and numeric ones) are decoded by the crate in the same entity-by-entity way
and are exercised by no claim. -/
def decodeEntities (l : List Char) : List Char := decodeEntitiesAux l.length l

/-- Entity decoding on strings. -/
def decodeHtmlEntities (s : String) : String := String.mk (decodeEntities s.toList)

/-- Hop (a) extraction (main.rs lines 62–68): first capture of
`;url='(.+)'\" />` in the first document.  The source applies no entity
decoding here. -/
def extractSecondUrl (doc : String) : Option String :=
  (regexCapture urlPre urlPost doc.toList).map String.mk

/-- The raw capture of the hop (b) regex, before entity decoding. -/
def rawSiteNameCapture (doc : String) : Option String :=
  (regexCapture sitePre sitePost doc.toList).map String.mk

/-- Hop (b) extraction (main.rs lines 76–84): first capture of the
`og:site_name` regex, passed through `decode_html_entities`. -/
def extractSiteName (doc : String) : Option String :=
  (regexCapture sitePre sitePost doc.toList).map fun c =>
    decodeHtmlEntities (String.mk c)

/-! ### Handlers -/

/-- The JSON payload of the event handler. -/
structure Metadata where
  owner_name : String
deriving DecidableEq, Repr

/-- A response body: plain text, PNG bytes, or the JSON serialization of a
`Metadata`. -/
inductive RespBody
  | text (s : String)
  | png (bytes : List Nat)
  | json (m : Metadata)
deriving DecidableEq, Repr

/-- An HTTP response: status code and the headers the service sets. -/
structure HttpResponse where
  status : Nat
  contentType : Option String
  cacheControl : Option String
  body : RespBody
deriving DecidableEq, Repr

/-- The URL fetched by hop (a) of the event handler (main.rs line 57). -/
def eventUrl (event_id : Nat) : String :=
  "https://zaiko.io/event/" ++ toString event_id

/-- The `event` handler (main.rs lines 56–88) over a fetch oracle
`fetch : url → body-or-error` (the oracle already folds in
`error_for_status`, so a non-2xx upstream status is an `error`).  Returns the
handler's result together with the list of URLs fetched, in order. -/
def event (fetch : String → Except String String) (event_id : Nat) :
    Except String Metadata × List String :=
  let url1 := eventUrl event_id
  match fetch url1 with
  | .error e => (.error e, [url1])
  | .ok first =>
    match extractSecondUrl first with
    | none => (.error "first: no context", [url1])
    | some second_url =>
      match fetch second_url with
      | .error e => (.error e, [url1, second_url])
      | .ok second =>
        match extractSiteName second with
        | none => (.error "second: og:site_name no context", [url1, second_url])
        | some site_name => (.ok { owner_name := site_name }, [url1, second_url])

/-- Rust's `str::starts_with` with a string pattern: `s` begins with `p`. -/
def strStartsWith (s p : String) : Bool :=
  decide (s.toList.take p.toList.length = p.toList)

/-- The allow-list prefix of the square handler (main.rs line 96). -/
def allowedBase : String := "https://media.zaiko.io/"

/-- The `square` handler (main.rs lines 95–118) over external collaborators:
`fetch` (bytes-or-error, `error_for_status` folded in), `load_from_memory`
(the image decoder), `writePng` (the PNG encoder, fallible as `write_to` is),
and the resampling/blending kernels of `resize_image`.  Returns the handler's
result together with the list of URLs fetched. -/
def square (fetch : String → Except String (List Nat))
    (load_from_memory : List Nat → Except String Image)
    (writePng : Image → Except String (List Nat))
    (resample : Image → Nat → Nat → Nat → Nat → Rgba)
    (blend : Rgba → Rgba → Rgba) (u : String) :
    Except String HttpResponse × List String :=
  if ¬ strStartsWith u allowedBase then
    (.ok { status := 400, contentType := none, cacheControl := none,
           body := .text "url not allowed" }, [])
  else
    match fetch u with
    | .error e => (.error e, [u])
    | .ok image_bytes =>
      match load_from_memory image_bytes with
      | .error e => (.error e, [u])
      | .ok img =>
        let resized_img := resize_image resample blend img 400 400
        match writePng resized_img with
        | .error e => (.error e, [u])
        | .ok buffer =>
          (.ok { status := 200, contentType := some "image/png",
                 cacheControl := none, body := .png buffer }, [u])

/-- Model of the `IntoResponse` impl of `AppError` (main.rs lines 31–40) applied at the handler
boundary: an `Ok` response passes through, an error becomes a 500 whose body
is `Something went wrong: {error}`. -/
def into_response (r : Except String HttpResponse) : HttpResponse :=
  match r with
  | .ok resp => resp
  | .error e =>
    { status := 500, contentType := none, cacheControl := none,
      body := .text ("Something went wrong: " ++ e) }

/-- The full event route: handler result resolved to an HTTP response
(`Json(Metadata)` is a 200 with a JSON body). -/
def eventResponse (fetch : String → Except String String) (event_id : Nat) :
    HttpResponse :=
  into_response ((event fetch event_id).1.map fun m =>
    { status := 200, contentType := some "application/json",
      cacheControl := none, body := .json m })

/-- The full square route: handler result resolved to an HTTP response. -/
def squareResponse (fetch : String → Except String (List Nat))
    (load_from_memory : List Nat → Except String Image)
    (writePng : Image → Except String (List Nat))
    (resample : Image → Nat → Nat → Nat → Nat → Rgba)
    (blend : Rgba → Rgba → Rgba) (u : String) : HttpResponse :=
  into_response (square fetch load_from_memory writePng resample blend u).1

/-- The `set_static_cache_control` middleware (main.rs lines 158–169): stamp
`Cache-Control: public, max-age=3600` on a `200 OK` response and
`public, max-age=300` on any other status (the source's two-arm
`match response.status() { StatusCode::OK => 3600, _ => 300 }`). -/
def set_static_cache_control (response : HttpResponse) : HttpResponse :=
  let seconds : Nat := if response.status = 200 then 3600 else 300
  { response with cacheControl := some ("public, max-age=" ++ toString seconds) }

/-- A success (2xx) HTTP status, as in `http::StatusCode::is_success`; this is
the spec's notion of "success status", stated for comparison with the code's
`StatusCode::OK` match. -/
def isSuccessStatus (s : Nat) : Bool := decide (200 ≤ s ∧ s < 300)

/-! ### Theorems -/

/-- The intermediate dimensions chosen by `resize_dimensions` never exceed the
target dimensions, for positive source dimensions and a target within
`1 ..= u32::MAX`. -/
theorem resize_dimensions_le (w h tw th : Nat) (hw : 0 < w) (hh : 0 < h)
    (htw : 0 < tw) (hth : 0 < th) (htwM : tw ≤ u32max) (hthM : th ≤ u32max) :
    (resize_dimensions w h tw th).1 ≤ tw ∧ (resize_dimensions w h tw th).2 ≤ th := by
  have hwQ : (0 : ℚ) < (w : ℚ) := by exact_mod_cast hw
  have hhQ : (0 : ℚ) < (h : ℚ) := by exact_mod_cast hh
  set ratio := min ((tw : ℚ) / (w : ℚ)) ((th : ℚ) / (h : ℚ)) with hratio
  have h1 : (w : ℚ) * ratio ≤ (tw : ℚ) := by
    calc (w : ℚ) * ratio ≤ (w : ℚ) * ((tw : ℚ) / (w : ℚ)) :=
          mul_le_mul_of_nonneg_left (min_le_left _ _) (le_of_lt hwQ)
      _ = (tw : ℚ) := by field_simp
  have h2 : (h : ℚ) * ratio ≤ (th : ℚ) := by
    calc (h : ℚ) * ratio ≤ (h : ℚ) * ((th : ℚ) / (h : ℚ)) :=
          mul_le_mul_of_nonneg_left (min_le_right _ _) (le_of_lt hhQ)
      _ = (th : ℚ) := by field_simp
  have f1 : roundAz ((w : ℚ) * ratio) ≤ (tw : ℤ) := by
    unfold roundAz
    calc ⌊(w : ℚ) * ratio + 1 / 2⌋ ≤ ⌊(tw : ℚ) + 1 / 2⌋ :=
          Int.floor_le_floor (by linarith)
      _ = (tw : ℤ) := by rw [Int.floor_nat_add]; norm_num
  have f2 : roundAz ((h : ℚ) * ratio) ≤ (th : ℤ) := by
    unfold roundAz
    calc ⌊(h : ℚ) * ratio + 1 / 2⌋ ≤ ⌊(th : ℚ) + 1 / 2⌋ :=
          Int.floor_le_floor (by linarith)
      _ = (th : ℤ) := by rw [Int.floor_nat_add]; norm_num
  have g1 : max (roundAz ((w : ℚ) * ratio)).toNat 1 ≤ tw :=
    Nat.max_le.mpr ⟨Int.toNat_le.mpr f1, htw⟩
  have g2 : max (roundAz ((h : ℚ) * ratio)).toNat 1 ≤ th :=
    Nat.max_le.mpr ⟨Int.toNat_le.mpr f2, hth⟩
  simp only [resize_dimensions, ← hratio]
  rw [if_neg (by omega), if_neg (by omega)]
  exact ⟨g1, g2⟩

/-- C1: for every source image and positive target dimensions, `resize_image`
returns an image of exactly the target dimensions whose pixel format
(`Rgba8`) carries an alpha channel. -/
theorem resize_image_dims_and_alpha
    (resample : Image → Nat → Nat → Nat → Nat → Rgba) (blend : Rgba → Rgba → Rgba)
    (img : Image) (target_w target_h : Nat)
    (hw : 0 < target_w) (hh : 0 < target_h) :
    (resize_image resample blend img target_w target_h).width = target_w ∧
    (resize_image resample blend img target_w target_h).height = target_h ∧
    (resize_image resample blend img target_w target_h).format = PixelFormat.Rgba8 ∧
    PixelFormat.hasAlpha (resize_image resample blend img target_w target_h).format
      = true := by
  refine ⟨rfl, rfl, rfl, rfl⟩

/-- Witness for C1 at a concrete source image and target 400 × 400. -/
theorem resize_image_dims_and_alpha_witness :
    0 < 400 ∧
    (resize_image (fun _ _ _ _ _ => transparent) (fun _ t => t)
        ⟨7, 3, PixelFormat.Rgb8, fun _ _ => ⟨1, 2, 3, 255⟩⟩ 400 400).width = 400 ∧
    (resize_image (fun _ _ _ _ _ => transparent) (fun _ t => t)
        ⟨7, 3, PixelFormat.Rgb8, fun _ _ => ⟨1, 2, 3, 255⟩⟩ 400 400).height = 400 ∧
    (resize_image (fun _ _ _ _ _ => transparent) (fun _ t => t)
        ⟨7, 3, PixelFormat.Rgb8, fun _ _ => ⟨1, 2, 3, 255⟩⟩ 400 400).format
      = PixelFormat.Rgba8 ∧
    PixelFormat.hasAlpha (resize_image (fun _ _ _ _ _ => transparent) (fun _ t => t)
        ⟨7, 3, PixelFormat.Rgb8, fun _ _ => ⟨1, 2, 3, 255⟩⟩ 400 400).format = true := by
  refine ⟨by decide, ?_⟩
  have h := resize_image_dims_and_alpha (fun _ _ _ _ _ => transparent) (fun _ t => t)
    ⟨7, 3, PixelFormat.Rgb8, fun _ _ => ⟨1, 2, 3, 255⟩⟩ 400 400 (by decide) (by decide)
  exact h

/-- C4: the centering offsets used by `resize_image` are the floor halves of
the leftover padding, so the left/top padding never exceeds the right/bottom
padding, and when the leftover is odd the extra pixel falls on the
right/bottom. -/
theorem centering_offsets_floor (target_w target_h new_w new_h : Nat)
    (hw : new_w ≤ target_w) (hh : new_h ≤ target_h) :
    (centering_offsets target_w target_h new_w new_h).1 = (target_w - new_w) / 2 ∧
    (centering_offsets target_w target_h new_w new_h).2 = (target_h - new_h) / 2 ∧
    (centering_offsets target_w target_h new_w new_h).1
      ≤ (target_w - new_w) - (centering_offsets target_w target_h new_w new_h).1 ∧
    (centering_offsets target_w target_h new_w new_h).2
      ≤ (target_h - new_h) - (centering_offsets target_w target_h new_w new_h).2 ∧
    ((target_w - new_w) % 2 = 1 →
      (centering_offsets target_w target_h new_w new_h).1
        < (target_w - new_w) - (centering_offsets target_w target_h new_w new_h).1) ∧
    ((target_h - new_h) % 2 = 1 →
      (centering_offsets target_w target_h new_w new_h).2
        < (target_h - new_h) - (centering_offsets target_w target_h new_w new_h).2) := by
  simp only [centering_offsets, true_and]
  omega

/-- Witness for C4 at the spec's example: target 400 × 400, scaled content
399 × 400 gives `x_offset = 0` and the whole odd pixel of padding on the
right. -/
theorem centering_offsets_floor_witness :
    399 ≤ 400 ∧ 400 ≤ 400 ∧
    (centering_offsets 400 400 399 400).1 = 0 ∧
    (centering_offsets 400 400 399 400).1
      < (400 - 399) - (centering_offsets 400 400 399 400).1 := by
  have h := centering_offsets_floor 400 400 399 400 (by decide) (by decide)
  exact ⟨by decide, by decide, by decide, h.2.2.2.2.1 (by decide)⟩

/-- The function `overlay` leaves every pixel outside the pasted region unchanged. -/
theorem overlay_pixel_outside (blend : Rgba → Rgba → Rgba) (bottom top : Image)
    (x y i j : Nat)
    (h : i < x ∨ x + top.width ≤ i ∨ j < y ∨ y + top.height ≤ j) :
    (overlay blend bottom top x y).pixel i j = bottom.pixel i j := by
  simp only [overlay]
  rw [if_neg]
  rintro ⟨h1, h2, _, h4, h5, _⟩
  omega

/-- C5: in the output of `resize_image`, every canvas pixel outside the
centered content region (the `new_w × new_h` rectangle at
`(x_offset, y_offset)`) is the fully transparent pixel `(0, 0, 0, 0)`. -/
theorem resize_image_outside_transparent
    (resample : Image → Nat → Nat → Nat → Nat → Rgba) (blend : Rgba → Rgba → Rgba)
    (img : Image) (target_w target_h i j : Nat)
    (hi : i < target_w) (hj : j < target_h)
    (houtside :
      i < (target_w - (resize resample img target_w target_h).width) / 2 ∨
      (target_w - (resize resample img target_w target_h).width) / 2
          + (resize resample img target_w target_h).width ≤ i ∨
      j < (target_h - (resize resample img target_w target_h).height) / 2 ∨
      (target_h - (resize resample img target_w target_h).height) / 2
          + (resize resample img target_w target_h).height ≤ j) :
    (resize_image resample blend img target_w target_h).pixel i j = transparent := by
  show (overlay blend
      { width := target_w, height := target_h, format := .Rgba8,
        pixel := fun _ _ => transparent }
      (resize resample img target_w target_h)
      ((target_w - (resize resample img target_w target_h).width) / 2)
      ((target_h - (resize resample img target_w target_h).height) / 2)).pixel i j
    = transparent
  rw [overlay_pixel_outside _ _ _ _ _ _ _ houtside]

/-- Witness for C5: a 1 × 2 source resizes to 200 × 400 inside the 400 × 400
canvas, so the pixel at `(0, 0)` lies left of the content region and is fully
transparent. -/
theorem resize_image_outside_transparent_witness :
    (0 : Nat) < 400 ∧
    (resize_image (fun _ _ _ _ _ => transparent) (fun _ t => t)
        ⟨1, 2, PixelFormat.Rgba8, fun _ _ => ⟨9, 9, 9, 255⟩⟩ 400 400).pixel 0 0
      = transparent := by
  have ew : (resize (fun _ _ _ _ _ => transparent)
      (⟨1, 2, PixelFormat.Rgba8, fun _ _ => ⟨9, 9, 9, 255⟩⟩ : Image) 400 400).width
      = 200 := by
    show (resize_dimensions 1 2 400 400).1 = 200
    norm_num [resize_dimensions, roundAz, u32max]
    decide
  refine ⟨by decide, ?_⟩
  apply resize_image_outside_transparent (fun _ _ _ _ _ => transparent) (fun _ t => t)
    ⟨1, 2, PixelFormat.Rgba8, fun _ _ => ⟨9, 9, 9, 255⟩⟩ 400 400 0 0
    (by decide) (by decide)
  left
  rw [ew]
  decide

/-- C10: for every source image with positive dimensions, the intermediate
image produced by `resize` for the fixed 400 × 400 target has dimensions at
most 400 × 400, so the `u32` subtractions `width - new_width` and
`height - new_height` in the offset computation of `resize_image` never
underflow. -/
theorem resize_within_400_no_underflow
    (resample : Image → Nat → Nat → Nat → Nat → Rgba) (img : Image)
    (hw : 0 < img.width) (hh : 0 < img.height) :
    (resize resample img 400 400).width ≤ 400 ∧
    (resize resample img 400 400).height ≤ 400 := by
  exact resize_dimensions_le img.width img.height 400 400 hw hh
    (by decide) (by decide) (by decide) (by decide)

/-- Witness for C10 at a 1000 × 500 source image. -/
theorem resize_within_400_no_underflow_witness :
    (0 : Nat) < 1000 ∧ (0 : Nat) < 500 ∧
    (resize (fun _ _ _ _ _ => transparent)
        ⟨1000, 500, PixelFormat.Rgb8, fun _ _ => ⟨1, 1, 1, 255⟩⟩ 400 400).width ≤ 400 ∧
    (resize (fun _ _ _ _ _ => transparent)
        ⟨1000, 500, PixelFormat.Rgb8, fun _ _ => ⟨1, 1, 1, 255⟩⟩ 400 400).height ≤ 400 := by
  have h := resize_within_400_no_underflow (fun _ _ _ _ _ => transparent)
    ⟨1000, 500, PixelFormat.Rgb8, fun _ _ => ⟨1, 1, 1, 255⟩⟩ (by decide) (by decide)
  exact ⟨by decide, by decide, h.1, h.2⟩

/-- C6: a `/square.png` request whose `u` parameter does not start with
`https://media.zaiko.io/` yields status 400 with body exactly
`url not allowed`, and the list of upstream fetches is empty. -/
theorem square_disallowed_url (fetch : String → Except String (List Nat))
    (load_from_memory : List Nat → Except String Image)
    (writePng : Image → Except String (List Nat))
    (resample : Image → Nat → Nat → Nat → Nat → Rgba)
    (blend : Rgba → Rgba → Rgba) (u : String)
    (h : strStartsWith u allowedBase = false) :
    square fetch load_from_memory writePng resample blend u =
      (.ok { status := 400, contentType := none, cacheControl := none,
             body := .text "url not allowed" }, []) := by
  simp [square, h]

/-- Witness for C6 at `u = https://evil.example.com/a.png`. -/
theorem square_disallowed_url_witness :
    strStartsWith "https://evil.example.com/a.png" allowedBase = false ∧
    square (fun _ => .error "no fetch") (fun _ => .error "no decode")
        (fun _ => .error "no encode") (fun _ _ _ _ _ => transparent) (fun _ t => t)
        "https://evil.example.com/a.png" =
      (.ok { status := 400, contentType := none, cacheControl := none,
             body := .text "url not allowed" }, []) := by
  exact ⟨by decide,
    square_disallowed_url _ _ _ _ _ "https://evil.example.com/a.png" (by decide)⟩

/-- C7: if hop (a) of the event pipeline fails — the first fetch errors, or
the redirect-URL pattern does not match the first document — the pipeline
returns an error and the only URL ever fetched is the first one; the hop (b)
fetch is never issued. -/
theorem event_hop_a_failure (fetch : String → Except String String) (event_id : Nat)
    (h : (∃ e, fetch (eventUrl event_id) = .error e) ∨
         (∃ d, fetch (eventUrl event_id) = .ok d ∧ extractSecondUrl d = none)) :
    (∃ e, (event fetch event_id).1 = .error e) ∧
    (event fetch event_id).2 = [eventUrl event_id] := by
  rcases h with ⟨e, he⟩ | ⟨d, hd, hx⟩
  · exact ⟨⟨e, by simp [event, he]⟩, by simp [event, he]⟩
  · exact ⟨⟨"first: no context", by simp [event, hd, hx]⟩, by simp [event, hd, hx]⟩

/-- Witness for C7: a first document lacking the redirect marker fails the
pipeline after a single fetch. -/
theorem event_hop_a_failure_witness :
    ((fun _ : String => (.ok "hello" : Except String String)) (eventUrl 42)
        = .ok "hello" ∧ extractSecondUrl "hello" = none) ∧
    (∃ e, (event (fun _ => .ok "hello") 42).1 = .error e) ∧
    (event (fun _ => .ok "hello") 42).2 = [eventUrl 42] := by
  exact ⟨⟨rfl, by decide⟩,
    event_hop_a_failure (fun _ => .ok "hello") 42 (.inr ⟨"hello", rfl, by decide⟩)⟩

/-- C8: every error propagating out of the event or square pipeline (upstream
fetch failure, extraction failure, decode failure, encode failure) is
surfaced at the handler boundary as an HTTP 500 whose body is
`Something went wrong: {detail}`; no error is swallowed or returned as 200. -/
theorem errors_surface_as_500 (fetch : String → Except String String)
    (event_id : Nat) (e : String)
    (fetchB : String → Except String (List Nat))
    (load_from_memory : List Nat → Except String Image)
    (writePng : Image → Except String (List Nat))
    (resample : Image → Nat → Nat → Nat → Nat → Rgba)
    (blend : Rgba → Rgba → Rgba) (u : String) (e2 : String) :
    ((event fetch event_id).1 = .error e →
      eventResponse fetch event_id =
        { status := 500, contentType := none, cacheControl := none,
          body := .text ("Something went wrong: " ++ e) }) ∧
    ((square fetchB load_from_memory writePng resample blend u).1 = .error e2 →
      squareResponse fetchB load_from_memory writePng resample blend u =
        { status := 500, contentType := none, cacheControl := none,
          body := .text ("Something went wrong: " ++ e2) }) := by
  constructor
  · intro h
    simp [eventResponse, into_response, h, Except.map]
  · intro h
    simp [squareResponse, into_response, h]

/-- Witness for C8: a failing upstream fetch on each route becomes a 500 with
the diagnostic body. -/
theorem errors_surface_as_500_witness :
    (event (fun _ => .error "boom") 7).1 = .error "boom" ∧
    eventResponse (fun _ => .error "boom") 7 =
      { status := 500, contentType := none, cacheControl := none,
        body := .text ("Something went wrong: " ++ "boom") } ∧
    (square (fun _ => .error "net down") (fun _ => .error "bad image")
        (fun _ => .error "bad png") (fun _ _ _ _ _ => transparent) (fun _ t => t)
        "https://media.zaiko.io/a.png").1 = .error "net down" ∧
    squareResponse (fun _ => .error "net down") (fun _ => .error "bad image")
        (fun _ => .error "bad png") (fun _ _ _ _ _ => transparent) (fun _ t => t)
        "https://media.zaiko.io/a.png" =
      { status := 500, contentType := none, cacheControl := none,
        body := .text ("Something went wrong: " ++ "net down") } := by
  have h := errors_surface_as_500 (fun _ => .error "boom") 7 "boom"
    (fun _ => .error "net down") (fun _ => .error "bad image")
    (fun _ => .error "bad png") (fun _ _ _ _ _ => transparent) (fun _ t => t)
    "https://media.zaiko.io/a.png" "net down"
  have hs : (square (fun _ => .error "net down") (fun _ => .error "bad image")
      (fun _ => .error "bad png") (fun _ _ _ _ _ => transparent) (fun _ t => t)
      "https://media.zaiko.io/a.png").1 = .error "net down" := by
    have hp : strStartsWith "https://media.zaiko.io/a.png" allowedBase = true := by
      decide
    simp [square, hp]
  exact ⟨rfl, h.1 rfl, hs, h.2 hs⟩

/-- Counterexample to C2: a first document whose redirect URL encodes `&` as
`&amp;` inside the attribute.  The pipeline fetches hop (b) at the raw,
still-encoded URL — entity decoding (which would turn it into `...a=1&b=2`)
is never applied at hop (a). -/
theorem event_hop_a_not_decoded_counterexample :
    (event (fun url =>
        if url = eventUrl 42 then
          .ok (";url=" ++ String.mk [ apos] ++ "https://second.example/?a=1&amp;b=2"
              ++ String.mk [ apos] ++ "\" />")
        else
          .ok "<meta property=\"og:site_name\" content=\"Owner\" />") 42).2
      = [eventUrl 42, "https://second.example/?a=1&amp;b=2"] ∧
    decodeHtmlEntities "https://second.example/?a=1&amp;b=2"
      = "https://second.example/?a=1&b=2" ∧
    ("https://second.example/?a=1&amp;b=2" : String)
      ≠ "https://second.example/?a=1&b=2" := by
  refine ⟨by decide, by decide, by decide⟩

/-- C2 amended: of the two attribute-context extractions, only hop (b)'s name
is HTML-entity-decoded before being returned; hop (a)'s redirect URL is used
for the hop (b) fetch exactly as captured, with no decoding. -/
theorem event_hop_b_decoded_hop_a_raw (fetch : String → Except String String)
    (event_id : Nat) (first su second raw : String)
    (h1 : fetch (eventUrl event_id) = .ok first)
    (h2 : extractSecondUrl first = some su)
    (h3 : fetch su = .ok second)
    (h4 : rawSiteNameCapture second = some raw) :
    (event fetch event_id).2 = [eventUrl event_id, su] ∧
    (event fetch event_id).1 = .ok { owner_name := decodeHtmlEntities raw } := by
  obtain ⟨c, hc, hcr⟩ := Option.map_eq_some'.mp h4
  have hs : extractSiteName second = some (decodeHtmlEntities raw) := by
    simp only [extractSiteName, hc, Option.map_some', ← hcr]
  constructor <;> simp [event, h1, h2, h3, hs]

/-- Witness for the amended C2 at a concrete two-document site. -/
theorem event_hop_b_decoded_hop_a_raw_witness :
    extractSecondUrl (";url=" ++ String.mk [ apos] ++ "https://second.example/page"
        ++ String.mk [ apos] ++ "\" />") = some "https://second.example/page" ∧
    rawSiteNameCapture "<meta property=\"og:site_name\" content=\"A &amp; B\" />"
      = some "A &amp; B" ∧
    decodeHtmlEntities "A &amp; B" = "A & B" ∧
    (event (fun url =>
        if url = eventUrl 7 then
          .ok (";url=" ++ String.mk [ apos] ++ "https://second.example/page"
              ++ String.mk [ apos] ++ "\" />")
        else if url = "https://second.example/page" then
          .ok "<meta property=\"og:site_name\" content=\"A &amp; B\" />"
        else
          .error "unexpected url") 7).2
      = [eventUrl 7, "https://second.example/page"] ∧
    (event (fun url =>
        if url = eventUrl 7 then
          .ok (";url=" ++ String.mk [ apos] ++ "https://second.example/page"
              ++ String.mk [ apos] ++ "\" />")
        else if url = "https://second.example/page" then
          .ok "<meta property=\"og:site_name\" content=\"A &amp; B\" />"
        else
          .error "unexpected url") 7).1
      = .ok { owner_name := decodeHtmlEntities "A &amp; B" } := by
  have h := event_hop_b_decoded_hop_a_raw (fun url =>
      if url = eventUrl 7 then
        .ok (";url=" ++ String.mk [ apos] ++ "https://second.example/page"
            ++ String.mk [ apos] ++ "\" />")
      else if url = "https://second.example/page" then
        .ok "<meta property=\"og:site_name\" content=\"A &amp; B\" />"
      else
        .error "unexpected url") 7
    (";url=" ++ String.mk [ apos] ++ "https://second.example/page"
      ++ String.mk [ apos] ++ "\" />")
    "https://second.example/page"
    "<meta property=\"og:site_name\" content=\"A &amp; B\" />"
    "A &amp; B"
    rfl (by decide) rfl (by decide)
  exact ⟨by decide, by decide, by decide, h.1, h.2⟩

/-- Counterexample to C3: status 201 is a success status, yet
`set_static_cache_control` stamps it with the short directive
`public, max-age=300`, not `public, max-age=3600`. -/
theorem cache_control_success_counterexample :
    isSuccessStatus 201 = true ∧
    (set_static_cache_control
        { status := 201, contentType := none, cacheControl := none,
          body := .text "created" }).cacheControl = some "public, max-age=300" ∧
    (some "public, max-age=300" : Option String) ≠ some "public, max-age=3600" := by
  refine ⟨by decide, by decide, by decide⟩

/-- C3 amended: `set_static_cache_control` stamps every response with a
`Cache-Control` header — `public, max-age=3600` exactly when the status is
200 (`StatusCode::OK`), and `public, max-age=300` for every other status —
and leaves the status unchanged. -/
theorem cache_control_stamped (response : HttpResponse) :
    (set_static_cache_control response).cacheControl =
      some ("public, max-age=" ++ if response.status = 200 then "3600" else "300") ∧
    (response.status ≠ 200 →
      (set_static_cache_control response).cacheControl
        = some "public, max-age=300") ∧
    (set_static_cache_control response).status = response.status ∧
    (set_static_cache_control response).cacheControl ≠ none := by
  have t1 : toString (3600 : Nat) = "3600" := by decide
  have t2 : toString (300 : Nat) = "300" := by decide
  by_cases h : response.status = 200 <;>
    simp [set_static_cache_control, h, t1, t2]

/-- Witness for the amended C3 at a 404 response. -/
theorem cache_control_stamped_witness :
    (404 : Nat) ≠ 200 ∧
    (set_static_cache_control
        { status := 404, contentType := none, cacheControl := none,
          body := .text "not found" }).cacheControl = some "public, max-age=300" := by
  exact ⟨by decide, (cache_control_stamped
    { status := 404, contentType := none, cacheControl := none,
      body := .text "not found" }).2.1 (by decide)⟩

end ZZApi
